import Mathlib

/-!
Shallow embedding of the FFI bridge in src/caviarpd/src/wrapper.c together
with the host-runtime (R) primitives it calls and a model of the native
engine declared in src/caviarpd/src/rustlib/dahl-randompartition.h.

Host values (SEXPs) are modelled as tagged vectors plus external-pointer
tokens; host-side mutable state (the external-pointer table, the native
heap, and the protection stack) is threaded explicitly through each bridge
entry point.  Every call the bridge makes into the host's protection
mechanism or into the native engine is recorded as an event, so that
protection balance and "native code was reached" facts are observable.
-/

/-- NA_INTEGER, R's integer missing-value sentinel (INT_MIN). -/
def NA_INTEGER : Int := -2147483648

/-- Truncation of a rational toward zero, modelling C's double-to-int cast
used by R's real-to-integer coercion. -/
def ratTrunc (q : Rat) : Int :=
  if 0 ≤ q.num then q.num / (q.den : Int) else -((-q.num) / (q.den : Int))

/-- R's coercion of one double to a 32-bit integer: truncate toward zero,
out-of-range becomes NA_INTEGER. -/
def doubleToInt (q : Rat) : Int :=
  let t := ratTrunc q
  if t < -2147483647 ∨ 2147483647 < t then NA_INTEGER else t

/-- Host (R) values as seen by the bridge: the three atomic vector kinds the
bridge touches (with an optional matrix dimension attribute), external
pointer tokens, and R_UnboundValue. -/
inductive SEXPv where
  | intVec (data : List Int) (dims : Option (Int × Int))
  | realVec (data : List Rat) (dims : Option (Int × Int))
  | lglVec (data : List Bool) (dims : Option (Int × Int))
  | extPtr (id : Nat)
  | unboundValue
deriving Repr, DecidableEq

/-- Errors raised by the host runtime primitives the bridge calls. -/
inductive RError where
  | negativeExtents
  | integerTypeError
  | cannotCoerce
  | negativeLength
deriving Repr, DecidableEq

/-- Rf_asInteger: first element coerced to integer, NA_INTEGER otherwise. -/
def Rf_asInteger : SEXPv → Int
  | .intVec (x :: _) _ => x
  | .realVec (q :: _) _ => doubleToInt q
  | .lglVec (b :: _) _ => if b then 1 else 0
  | _ => NA_INTEGER

/-- Rf_asReal: first element coerced to double. -/
def Rf_asReal : SEXPv → Rat
  | .realVec (q :: _) _ => q
  | .intVec (x :: _) _ => (x : Rat)
  | .lglVec (b :: _) _ => if b then 1 else 0
  | _ => 0

/-- Rf_asLogical: first element coerced to logical (as a C int). -/
def Rf_asLogical : SEXPv → Int
  | .lglVec (b :: _) _ => if b then 1 else 0
  | .intVec (x :: _) _ => if x = 0 then 0 else if x = NA_INTEGER then NA_INTEGER else 1
  | .realVec (q :: _) _ => if q = 0 then 0 else 1
  | _ => NA_INTEGER

/-- Rf_nrows: the first dimension when a dim attribute is present, the
length for a plain vector. -/
def Rf_nrows : SEXPv → Int
  | .intVec d dims => match dims with | some p => p.1 | none => d.length
  | .realVec d dims => match dims with | some p => p.1 | none => d.length
  | .lglVec d dims => match dims with | some p => p.1 | none => d.length
  | _ => 0

/-- Data part of Rf_coerceVector(-, REALSXP): every element as a double;
fails (an R error) on non-vector input such as an external pointer. -/
def coerceData_real : SEXPv → Option (List Rat)
  | .intVec d _ => some (d.map (fun i => (i : Rat)))
  | .realVec d _ => some d
  | .lglVec d _ => some (d.map (fun b => if b then (1 : Rat) else 0))
  | _ => none

/-- Data part of Rf_coerceVector(-, INTSXP): every element as a 32-bit
integer; fails on non-vector input. -/
def coerceData_int : SEXPv → Option (List Int)
  | .intVec d _ => some d
  | .realVec d _ => some (d.map doubleToInt)
  | .lglVec d _ => some (d.map (fun b => if b then (1 : Int) else 0))
  | _ => none

/-- INTEGER(): the int32 payload of an INTSXP (or LGLSXP) vector; an R
error on any other type. -/
def INTEGER : SEXPv → Except RError (List Int)
  | .intVec d _ => .ok d
  | .lglVec d _ => .ok (d.map (fun b => if b then (1 : Int) else 0))
  | _ => .error .integerTypeError

/-- Native addresses (the value stored inside an R external pointer). -/
abbrev Addr := Nat

/-- Association-list lookup used for the external-pointer table and the
native heap. -/
def alook {β : Type} : List (Nat × β) → Nat → Option β
  | [], _ => none
  | kv :: t, k => if kv.1 = k then some kv.2 else alook t k

/-- The native EpaParameters object (struct EpaParameters of
dahl-randompartition.h), as populated by the native constructor. -/
structure EpaParameters where
  n_items : Int
  similarity : List Rat
  permutation : List Int
  mass : Rat
  discount : Rat
deriving Repr, DecidableEq

/-- Modelled from the spec: the native constructor
dahl_randompartition__epaparameters_new, whose implementation is not under
src (only its header declaration is).  It reads n_items * n_items
similarity doubles and, when use_natural_permutation is zero, n_items
permutation integers from the supplied buffers; when
use_natural_permutation is nonzero the supplied permutation buffer is
ignored and the identity ordering 0, 1, ..., n_items-1 is used. -/
def epaparameters_new (n_items : Int) (similarity : List Rat)
    (permutation : List Int) (use_natural_permutation : Int)
    (mass discount : Rat) : EpaParameters :=
  let n := n_items.toNat
  { n_items := n_items
    similarity := similarity.take (n * n)
    permutation :=
      if use_natural_permutation ≠ 0 then (List.range n).map Int.ofNat
      else permutation.take n
    mass := mass
    discount := discount }

/-- Deterministic fold of a seed vector into a number, part of the
stand-in pseudo-random stream of the native engine model. -/
def seedFold (seed : List Int) : Nat :=
  seed.foldl (fun a x => (a * 31 + x.natAbs) % 1000003) 17

/-- Deterministic fold of a visitation order into a number, part of the
stand-in pseudo-random stream of the native engine model. -/
def permFold (perm : List Int) : Nat :=
  perm.foldl (fun a x => (a * 37 + x.natAbs) % 1000003) 5

/-- Modelled from the spec: one iteration of the native sampling loop of
dahl_randompartition__sample_partition (implementation not under src)
produces one full labelling of the n_items items, deterministically from
the seed, the visitation order baked into the prior (or a seed-derived
fresh order when randomize_permutation is set), and the iteration index.
The statistics of the engine are out of scope; only determinism, shape,
and dependence on the prior's stored permutation are modelled.  A null
prior pointer is undefined behaviour at the boundary; the model assigns it
an arbitrary total value (empty visitation order). -/
def nativeOnePartition (n_items : Nat) (seed : List Int)
    (p : Option EpaParameters) (randomize : Bool) (iter : Nat) : List Int :=
  let order : List Int := match p with | some q => q.permutation | none => []
  let base : Nat :=
    seedFold seed + (if randomize then 13 * seedFold seed + 7 else permFold order)
  (List.range n_items).map (fun j => Int.ofNat ((base + 7 * iter + 3 * j) % (n_items + 1)))

/-- Modelled from the spec: the native sampling loop, one iteration per
requested partition; iteration k appends one labelling of n_items items. -/
def nativeSampleLoop (n_items : Nat) (seed : List Int)
    (p : Option EpaParameters) (randomize : Bool) : Nat → List (List Int)
  | 0 => []
  | Nat.succ k =>
      nativeSampleLoop n_items seed p randomize k ++
        [nativeOnePartition n_items seed p randomize k]

/-- Modelled from the spec: the flat buffer of labels written by
dahl_randompartition__sample_partition into the output matrix. -/
def nativeSamplePartitionLabels (n_partitions n_items : Nat) (seed : List Int)
    (p : Option EpaParameters) (randomize : Bool) : List Int :=
  (nativeSampleLoop n_items seed p randomize n_partitions).flatten

/-- Observable events of one bridge call: host protection-stack operations
and calls into the native engine (with the marshalled arguments). -/
inductive NEvent where
  | protect
  | unprotect (n : Nat)
  | callEpaNew (n_items : Int) (similarity : List Rat) (permutation : List Int)
      (use_natural : Int) (mass discount : Rat)
  | callEpaFree (addr : Option Addr)
  | callSample (n_partitions n_items : Int) (seed : List Int) (prior_id : Int)
      (addr : Option Addr) (randomize : Bool)
deriving Repr, DecidableEq

/-- Host-side mutable state threaded through the bridge: the external
pointer table (token id to stored native address, none meaning null), the
native heap of live EpaParameters objects, fresh-id counters, and the
event trace. -/
structure RState where
  extPtrs : List (Nat × Option Addr)
  natHeap : List (Addr × EpaParameters)
  nextPtrId : Nat
  nextAddr : Addr
  trace : List NEvent
deriving Repr, DecidableEq

/-- The empty initial host state. -/
def st0 : RState :=
  { extPtrs := [], natHeap := [], nextPtrId := 0, nextAddr := 0, trace := [] }

/-- R_ExternalPtrAddr: the native address stored in an external pointer
token (none models a NULL address, also for non-external-pointer input). -/
def R_ExternalPtrAddr (ptrs : List (Nat × Option Addr)) : SEXPv → Option Addr
  | .extPtr pid =>
      match alook ptrs pid with
      | some a => a
      | none => none
  | _ => none

/-- R_ClearExternalPtr on the external pointer table: the token's stored
address becomes null. -/
def setPtr : List (Nat × Option Addr) → Nat → Option Addr →
    List (Nat × Option Addr)
  | [], _, _ => []
  | kv :: t, k, v => (if kv.1 = k then (k, v) else kv) :: setPtr t k v

/-- rrAllocVectorINTSXP of wrapper.c: PROTECT(Rf_allocVector(INTSXP, len)),
returning the pinned buffer; the pin is recorded and never released by
this call.  A negative length is an R allocation error. -/
structure Rr_Sexp_Vector_Intsxp where
  data : List Int
  len : Int
deriving Repr, DecidableEq

def rrAllocVectorINTSXP (st : RState) (len : Int) :
    RState × Except RError Rr_Sexp_Vector_Intsxp :=
  if len < 0 then (st, .error .negativeLength)
  else ({ st with trace := st.trace ++ [.protect] },
        .ok { data := List.replicate len.toNat 0, len := len })

/-- The pure core of new_EpaParameters of wrapper.c: n_items is
Rf_nrows(similarity_sexp); the similarity argument is coerced to REALSXP
and protected, the permutation argument is coerced to INTSXP and
protected, the scalar arguments are read, the native constructor is
called, and both coercions are unprotected.  Returns the events of the
call and either the constructed native object or the R coercion error. -/
def new_EpaParametersCore (similarity_sexp permutation_sexp
    use_natural_permutation_sexp mass_sexp discount_sexp : SEXPv) :
    List NEvent × Except RError EpaParameters :=
  let n_items := Rf_nrows similarity_sexp
  match coerceData_real similarity_sexp with
  | none => ([], .error .cannotCoerce)
  | some similarity =>
    match coerceData_int permutation_sexp with
    | none => ([.protect], .error .cannotCoerce)
    | some permutation =>
      let use_natural := Rf_asLogical use_natural_permutation_sexp
      let mass := Rf_asReal mass_sexp
      let discount := Rf_asReal discount_sexp
      ([.protect, .protect,
        .callEpaNew n_items similarity permutation use_natural mass discount,
        .unprotect 2],
       .ok (epaparameters_new n_items similarity permutation use_natural mass discount))

/-- new_EpaParameters of wrapper.c: run the core, place the constructed
native object on the native heap at a fresh address, and wrap that address
in a fresh external pointer token (R_MakeExternalPtr). -/
def new_EpaParameters (st : RState) (similarity_sexp permutation_sexp
    use_natural_permutation_sexp mass_sexp discount_sexp : SEXPv) :
    RState × Except RError SEXPv :=
  match new_EpaParametersCore similarity_sexp permutation_sexp
      use_natural_permutation_sexp mass_sexp discount_sexp with
  | (evs, .error e) => ({ st with trace := st.trace ++ evs }, .error e)
  | (evs, .ok p) =>
      ({ st with
          trace := st.trace ++ evs
          natHeap := (st.nextAddr, p) :: st.natHeap
          nextAddr := st.nextAddr + 1
          extPtrs := (st.nextPtrId, some st.nextAddr) :: st.extPtrs
          nextPtrId := st.nextPtrId + 1 },
       .ok (.extPtr st.nextPtrId))

/-- free_EpaParameters of wrapper.c: read the token's stored address
(R_ExternalPtrAddr), call the native free with it (removing the object
from the native heap when the address is live), then clear the token's
stored address (R_ClearExternalPtr) and return R_UnboundValue. -/
def free_EpaParameters (st : RState) (ptr_sexp : SEXPv) : RState × SEXPv :=
  let addr := R_ExternalPtrAddr st.extPtrs ptr_sexp
  let heap1 :=
    match addr with
    | some a => st.natHeap.filter (fun kv => kv.1 != a)
    | none => st.natHeap
  let ptrs1 :=
    match ptr_sexp with
    | .extPtr pid => setPtr st.extPtrs pid none
    | _ => st.extPtrs
  ({ st with
      natHeap := heap1
      extPtrs := ptrs1
      trace := st.trace ++ [.callEpaFree addr] },
   SEXPv.unboundValue)

/-- The pure core of samplePartition of wrapper.c: read n_samples and
n_items (Rf_asInteger), allocate and protect the n_samples x n_items
output matrix (Rf_allocMatrix, which rejects negative extents before any
native call), read the seed buffer (INTEGER, an R type error on
non-integer input, raised after the matrix was protected), read prior_id,
resolve the prior token's native address (R_ExternalPtrAddr, with no
validity check), call the native sampler unconditionally, unprotect the
matrix, and return it.  Returns the events of the call and the result. -/
def samplePartitionCore (ptrs : List (Nat × Option Addr))
    (heap : List (Addr × EpaParameters))
    (n_samples_sexp n_items_sexp seed_sexp prior_id_sexp prior_ptr_sexp
      randomize_permutation_sexp : SEXPv) :
    List NEvent × Except RError SEXPv :=
  let n_samples := Rf_asInteger n_samples_sexp
  let n_items := Rf_asInteger n_items_sexp
  if n_samples < 0 ∨ n_items < 0 then ([], .error .negativeExtents)
  else
    match INTEGER seed_sexp with
    | .error e => ([.protect], .error e)
    | .ok seed =>
      let prior_id := Rf_asInteger prior_id_sexp
      let addr := R_ExternalPtrAddr ptrs prior_ptr_sexp
      let prior := addr.bind (fun a => alook heap a)
      let randomize := Rf_asLogical randomize_permutation_sexp != 0
      let labels :=
        nativeSamplePartitionLabels n_samples.toNat n_items.toNat seed prior randomize
      ([.protect, .callSample n_samples n_items seed prior_id addr randomize,
        .unprotect 1],
       .ok (.intVec labels (some (n_samples, n_items))))

/-- samplePartition of wrapper.c: run the core against the current
external-pointer table and native heap; the call records its events and
touches neither the external-pointer table nor the native heap. -/
def samplePartition (st : RState) (n_samples_sexp n_items_sexp seed_sexp
    prior_id_sexp prior_ptr_sexp randomize_permutation_sexp : SEXPv) :
    RState × Except RError SEXPv :=
  let c := samplePartitionCore st.extPtrs st.natHeap n_samples_sexp
    n_items_sexp seed_sexp prior_id_sexp prior_ptr_sexp
    randomize_permutation_sexp
  ({ st with trace := st.trace ++ c.1 }, c.2)

/-- Scalar integer argument, as the host passes it. -/
def intScalar (n : Int) : SEXPv := .intVec [n] none

/-- Scalar logical argument. -/
def lglScalar (b : Bool) : SEXPv := .lglVec [b] none

/-- Scalar double argument. -/
def realScalar (q : Rat) : SEXPv := .realVec [q] none

/-- The identity permutation 0, ..., n-1 as a host integer vector. -/
def identityPermSexp (n : Nat) : SEXPv :=
  .intVec ((List.range n).map Int.ofNat) none

/-- Number of PROTECT events in a trace. -/
def protectCount (tr : List NEvent) : Nat :=
  (tr.map (fun e => match e with | .protect => 1 | _ => 0)).sum

/-- Total count of pins released by UNPROTECT events in a trace. -/
def unprotectCount (tr : List NEvent) : Nat :=
  (tr.map (fun e => match e with | .unprotect n => n | _ => 0)).sum

/-- Success test for a bridge result. -/
def isOk {α : Type} : Except RError α → Bool
  | .ok _ => true
  | .error _ => false

theorem nativeOnePartition_length (n_items : Nat) (seed : List Int)
    (p : Option EpaParameters) (randomize : Bool) (iter : Nat) :
    (nativeOnePartition n_items seed p randomize iter).length = n_items := by
  simp [nativeOnePartition]

theorem nativeSamplePartitionLabels_length (n_partitions n_items : Nat)
    (seed : List Int) (p : Option EpaParameters) (randomize : Bool) :
    (nativeSamplePartitionLabels n_partitions n_items seed p randomize).length =
      n_partitions * n_items := by
  induction n_partitions with
  | zero => simp [nativeSamplePartitionLabels, nativeSampleLoop]
  | succ m ih =>
      simp only [nativeSamplePartitionLabels, nativeSampleLoop] at *
      simp [ih, nativeOnePartition_length, Nat.succ_mul]

/-- C1: for every samplePartition call whose n_partitions argument reads as
np with np ≥ 0 and whose n_items argument reads as ni with ni ≥ 1 (and
whose seed buffer is an integer vector), the returned value is an integer
matrix with np rows and ni columns, i.e. exactly np * ni entries. -/
theorem C1_shape (st : RState) (nsS niS seedS pidS pS rS : SEXPv) (np ni : Int)
    (seed : List Int)
    (hns : Rf_asInteger nsS = np) (hni : Rf_asInteger niS = ni)
    (hnp : 0 ≤ np) (hni1 : 1 ≤ ni) (hseed : INTEGER seedS = .ok seed) :
    ∃ labels : List Int,
      (samplePartition st nsS niS seedS pidS pS rS).2 =
        .ok (.intVec labels (some (np, ni))) ∧
      labels.length = np.toNat * ni.toNat := by
  have hcond : ¬(np < 0 ∨ ni < 0) := by omega
  refine ⟨nativeSamplePartitionLabels np.toNat ni.toNat seed
      ((R_ExternalPtrAddr st.extPtrs pS).bind (fun a => alook st.natHeap a))
      (Rf_asLogical rS != 0), ?_, ?_⟩
  · simp [samplePartition, samplePartitionCore, hcond, hseed, hns, hni]
  · simp [nativeSamplePartitionLabels_length]

/-- Witness for C1_shape at a concrete call: 2 partitions of 3 items. -/
theorem C1_shape_witness :
    ∃ labels : List Int,
      (samplePartition st0 (intScalar 2) (intScalar 3) (SEXPv.intVec [7] none)
          (intScalar 1) SEXPv.unboundValue (lglScalar false)).2 =
        .ok (.intVec labels (some (2, 3))) ∧
      labels.length = (2 : Int).toNat * (3 : Int).toNat :=
  C1_shape st0 (intScalar 2) (intScalar 3) (SEXPv.intVec [7] none)
    (intScalar 1) SEXPv.unboundValue (lglScalar false) 2 3 [7] rfl rfl
    (by decide) (by decide) rfl

/-- C7: samplePartition, whether it succeeds or fails, leaves the
external-pointer table and the native heap unchanged: it never clears,
reassigns, or frees the prior handle's native pointer, so the handle
resolves to the same address afterwards and remains reusable. -/
theorem C7_prior_preserved (st : RState) (a b c d e f : SEXPv) :
    (samplePartition st a b c d e f).1.extPtrs = st.extPtrs ∧
    (samplePartition st a b c d e f).1.natHeap = st.natHeap ∧
    R_ExternalPtrAddr (samplePartition st a b c d e f).1.extPtrs e =
      R_ExternalPtrAddr st.extPtrs e :=
  ⟨rfl, rfl, rfl⟩

theorem alook_setPtr_self (l : List (Nat × Option Addr)) (k : Nat)
    (v w : Option Addr) (h : alook l k = some w) :
    alook (setPtr l k v) k = some v := by
  induction l with
  | nil => simp [alook] at h
  | cons kv t ih =>
      by_cases hk : kv.1 = k
      · simp [setPtr, hk, alook]
      · simp only [setPtr, if_neg hk] at *
        simp only [alook, if_neg hk] at h ⊢
        exact ih h

/-- C2: free_EpaParameters clears the token's stored native address to
null: the first destruction passes the live address to the native free,
afterwards the token holds null, and a second destruction attempt on the
same token passes null to the native free, never the live pointer. -/
theorem C2_free_clears (st : RState) (pid : Nat) (a : Addr)
    (h : alook st.extPtrs pid = some (some a)) :
    (free_EpaParameters st (SEXPv.extPtr pid)).1.trace =
      st.trace ++ [NEvent.callEpaFree (some a)] ∧
    alook (free_EpaParameters st (SEXPv.extPtr pid)).1.extPtrs pid = some none ∧
    (free_EpaParameters (free_EpaParameters st (SEXPv.extPtr pid)).1
        (SEXPv.extPtr pid)).1.trace =
      (free_EpaParameters st (SEXPv.extPtr pid)).1.trace ++
        [NEvent.callEpaFree none] := by
  have h1 : R_ExternalPtrAddr st.extPtrs (SEXPv.extPtr pid) = some a := by
    simp [R_ExternalPtrAddr, h]
  have h2 : alook (setPtr st.extPtrs pid none) pid = some none :=
    alook_setPtr_self _ _ _ _ h
  refine ⟨?_, ?_, ?_⟩
  · simp [free_EpaParameters, h1]
  · simpa [free_EpaParameters] using h2
  · simp [free_EpaParameters, R_ExternalPtrAddr, h1, h2]

/-- A 2 x 2 similarity matrix host value. -/
def sim22 : SEXPv := .realVec [1, 1, 1, 1] (some (2, 2))

/-- The state after one successful new_EpaParameters call on st0; the
resulting handle is token 0 holding native address 0. -/
def stConstructed : RState :=
  (new_EpaParameters st0 sim22 (SEXPv.intVec [0, 1] none) (lglScalar true)
    (realScalar 1) (realScalar 0)).1

/-- The state after constructing and then freeing the handle (token 0). -/
def stAfterFree : RState :=
  (free_EpaParameters stConstructed (SEXPv.extPtr 0)).1

/-- Witness for C2_free_clears on a concretely constructed handle. -/
theorem C2_free_clears_witness :
    (free_EpaParameters stConstructed (SEXPv.extPtr 0)).1.trace =
      stConstructed.trace ++ [NEvent.callEpaFree (some 0)] ∧
    alook (free_EpaParameters stConstructed (SEXPv.extPtr 0)).1.extPtrs 0 =
      some none ∧
    (free_EpaParameters (free_EpaParameters stConstructed (SEXPv.extPtr 0)).1
        (SEXPv.extPtr 0)).1.trace =
      (free_EpaParameters stConstructed (SEXPv.extPtr 0)).1.trace ++
        [NEvent.callEpaFree none] :=
  C2_free_clears stConstructed 0 0 (by decide)

theorem Rf_asInteger_intScalar (n : Int) : Rf_asInteger (intScalar n) = n := rfl

theorem Rf_asLogical_lglScalar (b : Bool) :
    Rf_asLogical (lglScalar b) = if b then 1 else 0 := rfl

/-- C5: samplePartition with n_partitions = 0 returns an empty matrix
(0 x n_items, no entries), and the native sampling loop performs zero
iterations (the native entry point is still called with n_partitions = 0;
its per-partition loop body never executes). -/
theorem C5_zero_partitions (st : RState) (niS seedS pidS pS rS : SEXPv)
    (ni : Int) (seed : List Int)
    (hni : Rf_asInteger niS = ni) (h0 : 0 ≤ ni)
    (hseed : INTEGER seedS = .ok seed) :
    (samplePartition st (intScalar 0) niS seedS pidS pS rS).2 =
      .ok (.intVec [] (some (0, ni))) ∧
    (∀ p randomize, nativeSampleLoop ni.toNat seed p randomize 0 = []) := by
  have hcond : ¬(ni < 0) := by omega
  constructor
  · simp [samplePartition, samplePartitionCore, hni, hseed, hcond,
      Rf_asInteger_intScalar, nativeSamplePartitionLabels, nativeSampleLoop]
  · intro p r
    rfl

/-- Witness for C5_zero_partitions: zero partitions of three items. -/
theorem C5_zero_partitions_witness :
    (samplePartition st0 (intScalar 0) (intScalar 3) (SEXPv.intVec [11] none)
        (intScalar 1) SEXPv.unboundValue (lglScalar false)).2 =
      .ok (.intVec [] (some (0, 3))) ∧
    (∀ p randomize, nativeSampleLoop (3 : Int).toNat [11] p randomize 0 = []) :=
  C5_zero_partitions st0 (intScalar 3) (SEXPv.intVec [11] none) (intScalar 1)
    SEXPv.unboundValue (lglScalar false) 3 [11] rfl (by decide) rfl

/-- C3 counterexample: after construct-then-free, a samplePartition call
passing the freed token is not rejected or detected in the bridge: the
call succeeds and the native sampling entry is invoked, with the cleared
(null) prior address. -/
theorem C3_counterexample :
    isOk (samplePartition stAfterFree (intScalar 1) (intScalar 2)
        (SEXPv.intVec [42] none) (intScalar 1) (SEXPv.extPtr 0)
        (lglScalar false)).2 = true ∧
    NEvent.callSample 1 2 [42] 1 none false ∈
      (samplePartition stAfterFree (intScalar 1) (intScalar 2)
        (SEXPv.intVec [42] none) (intScalar 1) (SEXPv.extPtr 0)
        (lglScalar false)).1.trace := by
  decide

/-- C3 (amended): a sampling call with a constructed-then-destroyed handle
is not rejected in the bridge; the native sampling entry point is reached,
though with the null prior pointer left by the destruction (the cleared
token) rather than the stale live address. -/
theorem C3_after_free_reaches_native (st : RState) (pid : Nat)
    (nsS niS seedS pidS rS : SEXPv) (seed : List Int)
    (hcleared : alook st.extPtrs pid = some none)
    (hns : 0 ≤ Rf_asInteger nsS) (hni : 0 ≤ Rf_asInteger niS)
    (hseed : INTEGER seedS = .ok seed) :
    isOk (samplePartition st nsS niS seedS pidS (SEXPv.extPtr pid) rS).2 = true ∧
    NEvent.callSample (Rf_asInteger nsS) (Rf_asInteger niS) seed
        (Rf_asInteger pidS) none (Rf_asLogical rS != 0) ∈
      (samplePartition st nsS niS seedS pidS (SEXPv.extPtr pid) rS).1.trace := by
  have hcond : ¬(Rf_asInteger nsS < 0 ∨ Rf_asInteger niS < 0) := by omega
  have haddr : R_ExternalPtrAddr st.extPtrs (SEXPv.extPtr pid) = none := by
    simp [R_ExternalPtrAddr, hcleared]
  constructor
  · simp [samplePartition, samplePartitionCore, hcond, hseed, isOk]
  · simp [samplePartition, samplePartitionCore, hcond, hseed, haddr]

/-- Witness for C3_after_free_reaches_native on the concrete
construct-then-free state. -/
theorem C3_after_free_reaches_native_witness :
    isOk (samplePartition stAfterFree (intScalar 1) (intScalar 2)
        (SEXPv.intVec [42] none) (intScalar 1) (SEXPv.extPtr 0)
        (lglScalar true)).2 = true ∧
    NEvent.callSample 1 2 [42] 1 none true ∈
      (samplePartition stAfterFree (intScalar 1) (intScalar 2)
        (SEXPv.intVec [42] none) (intScalar 1) (SEXPv.extPtr 0)
        (lglScalar true)).1.trace :=
  C3_after_free_reaches_native stAfterFree 0 (intScalar 1) (intScalar 2)
    (SEXPv.intVec [42] none) (intScalar 1) (lglScalar true) [42]
    (by decide) (by decide) (by decide) rfl

/-- C4 counterexample: new_EpaParameters with a 2 x 2 similarity matrix and
a length-0 permutation (mismatched with n_items = 2) is not rejected: the
call succeeds, and the native constructor is invoked with the mismatched
buffers, no error having been raised before the native allocation. -/
theorem C4_counterexample :
    isOk (new_EpaParameters st0 sim22 (SEXPv.intVec [] none) (lglScalar true)
        (realScalar 1) (realScalar 0)).2 = true ∧
    NEvent.callEpaNew 2 [1, 1, 1, 1] [] 1 1 0 ∈
      (new_EpaParameters st0 sim22 (SEXPv.intVec [] none) (lglScalar true)
        (realScalar 1) (realScalar 0)).1.trace := by
  decide

/-- C4 (amended): negative counts passed to samplePartition are rejected
with a descriptive error by the host allocator before any native call and
with no state change; but new_EpaParameters performs no dimension
validation: for every coercible similarity and permutation argument,
including an n_items that does not match the permutation's length or the
similarity's element count, the call succeeds and reaches the native
constructor. -/
theorem C4_no_dimension_validation (st st' : RState)
    (nsS niS seedS pidS pS rS simS permS natS massS discS : SEXPv)
    (simD : List Rat) (permD : List Int)
    (hneg : Rf_asInteger nsS < 0 ∨ Rf_asInteger niS < 0)
    (hsim : coerceData_real simS = some simD)
    (hperm : coerceData_int permS = some permD) :
    samplePartition st nsS niS seedS pidS pS rS =
      (st, .error .negativeExtents) ∧
    (new_EpaParameters st' simS permS natS massS discS).2 =
      .ok (.extPtr st'.nextPtrId) ∧
    NEvent.callEpaNew (Rf_nrows simS) simD permD (Rf_asLogical natS)
        (Rf_asReal massS) (Rf_asReal discS) ∈
      (new_EpaParameters st' simS permS natS massS discS).1.trace := by
  refine ⟨?_, ?_, ?_⟩
  · simp [samplePartition, samplePartitionCore, if_pos hneg]
  · simp [new_EpaParameters, new_EpaParametersCore, hsim, hperm]
  · simp [new_EpaParameters, new_EpaParametersCore, hsim, hperm]

/-- Witness for C4_no_dimension_validation: a negative sample count and a
2 x 2 similarity paired with an empty permutation. -/
theorem C4_no_dimension_validation_witness :
    samplePartition st0 (intScalar (-1)) (intScalar 2) (SEXPv.intVec [3] none)
        (intScalar 1) SEXPv.unboundValue (lglScalar false) =
      (st0, .error .negativeExtents) ∧
    (new_EpaParameters st0 sim22 (SEXPv.intVec [] none) (lglScalar true)
        (realScalar 1) (realScalar 0)).2 = .ok (.extPtr 0) ∧
    NEvent.callEpaNew 2 [1, 1, 1, 1] [] 1 1 0 ∈
      (new_EpaParameters st0 sim22 (SEXPv.intVec [] none) (lglScalar true)
        (realScalar 1) (realScalar 0)).1.trace :=
  C4_no_dimension_validation st0 st0 (intScalar (-1)) (intScalar 2)
    (SEXPv.intVec [3] none) (intScalar 1) SEXPv.unboundValue (lglScalar false)
    sim22 (SEXPv.intVec [] none) (lglScalar true) (realScalar 1) (realScalar 0)
    [1, 1, 1, 1] [] (by decide) rfl rfl

theorem protectCount_append (a b : List NEvent) :
    protectCount (a ++ b) = protectCount a + protectCount b := by
  simp [protectCount]

theorem unprotectCount_append (a b : List NEvent) :
    unprotectCount (a ++ b) = unprotectCount a + unprotectCount b := by
  simp [unprotectCount]

/-- C6 counterexample: rrAllocVectorINTSXP with length 3 performs one pin
(PROTECT) and no unpin (UNPROTECT) on its only exit path, so the pin it
performs is not matched by an unpin within the bridge call that performed
it. -/
theorem C6_counterexample :
    protectCount (rrAllocVectorINTSXP st0 3).1.trace = 1 ∧
    unprotectCount (rrAllocVectorINTSXP st0 3).1.trace = 0 ∧
    protectCount (rrAllocVectorINTSXP st0 3).1.trace ≠
      unprotectCount (rrAllocVectorINTSXP st0 3).1.trace := by
  decide

/-- C6 (amended): samplePartition's pin of the output matrix is matched by
exactly one unpin on its successful exit path (one PROTECT and an
UNPROTECT of one slot); rrAllocVectorINTSXP, however, pins the buffer it
allocates and returns with the pin still held: its exit path performs one
PROTECT and no UNPROTECT, the release being left to code outside the
call. -/
theorem C6_pin_unpin (st st' : RState) (nsS niS seedS pidS pS rS : SEXPv)
    (seed : List Int) (len : Int)
    (hns : 0 ≤ Rf_asInteger nsS) (hni : 0 ≤ Rf_asInteger niS)
    (hseed : INTEGER seedS = .ok seed) (hlen : 0 ≤ len) :
    protectCount (samplePartition st nsS niS seedS pidS pS rS).1.trace =
      protectCount st.trace + 1 ∧
    unprotectCount (samplePartition st nsS niS seedS pidS pS rS).1.trace =
      unprotectCount st.trace + 1 ∧
    protectCount (rrAllocVectorINTSXP st' len).1.trace =
      protectCount st'.trace + 1 ∧
    unprotectCount (rrAllocVectorINTSXP st' len).1.trace =
      unprotectCount st'.trace := by
  have hcond : ¬(Rf_asInteger nsS < 0 ∨ Rf_asInteger niS < 0) := by omega
  have hlen2 : ¬(len < 0) := by omega
  refine ⟨?_, ?_, ?_, ?_⟩ <;>
    simp [samplePartition, samplePartitionCore, rrAllocVectorINTSXP, hcond,
      hseed, hlen2, protectCount_append, unprotectCount_append, protectCount,
      unprotectCount]

/-- Witness for C6_pin_unpin at a concrete sampling call and allocation. -/
theorem C6_pin_unpin_witness :
    protectCount (samplePartition st0 (intScalar 1) (intScalar 2)
        (SEXPv.intVec [5] none) (intScalar 1) SEXPv.unboundValue
        (lglScalar false)).1.trace = protectCount st0.trace + 1 ∧
    unprotectCount (samplePartition st0 (intScalar 1) (intScalar 2)
        (SEXPv.intVec [5] none) (intScalar 1) SEXPv.unboundValue
        (lglScalar false)).1.trace = unprotectCount st0.trace + 1 ∧
    protectCount (rrAllocVectorINTSXP stConstructed 4).1.trace =
      protectCount stConstructed.trace + 1 ∧
    unprotectCount (rrAllocVectorINTSXP stConstructed 4).1.trace =
      unprotectCount stConstructed.trace :=
  C6_pin_unpin st0 stConstructed (intScalar 1) (intScalar 2)
    (SEXPv.intVec [5] none) (intScalar 1) SEXPv.unboundValue (lglScalar false)
    [5] 4 (by decide) (by decide) rfl (by decide)

/-- C8: for a fixed integer seed buffer, n_items argument, prior handle
and host state, and randomize_permutation read as false, a samplePartition
call with n_partitions = 1 and an immediately repeated identical call
produce the identical label vector. -/
theorem C8_determinism (st : RState) (niS seedS pidS pS rS : SEXPv)
    (seed : List Int)
    (hni : 0 ≤ Rf_asInteger niS) (hseed : INTEGER seedS = .ok seed)
    (hrand : Rf_asLogical rS = 0) :
    ∃ labels : List Int,
      (samplePartition st (intScalar 1) niS seedS pidS pS rS).2 =
        .ok (.intVec labels (some (1, Rf_asInteger niS))) ∧
      (samplePartition
          (samplePartition st (intScalar 1) niS seedS pidS pS rS).1
          (intScalar 1) niS seedS pidS pS rS).2 =
        .ok (.intVec labels (some (1, Rf_asInteger niS))) := by
  have hcond : ¬(Rf_asInteger niS < 0) := by omega
  refine ⟨nativeSamplePartitionLabels (1 : Int).toNat (Rf_asInteger niS).toNat
      seed ((R_ExternalPtrAddr st.extPtrs pS).bind (fun a => alook st.natHeap a))
      false, ?_, ?_⟩ <;>
    simp [samplePartition, samplePartitionCore, hcond, hseed, hrand,
      Rf_asInteger_intScalar]

/-- Witness for C8_determinism: repeated single-partition sampling through
the concretely constructed handle. -/
theorem C8_determinism_witness :
    ∃ labels : List Int,
      (samplePartition stConstructed (intScalar 1) (intScalar 2)
          (SEXPv.intVec [9] none) (intScalar 1) (SEXPv.extPtr 0)
          (lglScalar false)).2 =
        .ok (.intVec labels (some (1, Rf_asInteger (intScalar 2)))) ∧
      (samplePartition
          (samplePartition stConstructed (intScalar 1) (intScalar 2)
            (SEXPv.intVec [9] none) (intScalar 1) (SEXPv.extPtr 0)
            (lglScalar false)).1
          (intScalar 1) (intScalar 2) (SEXPv.intVec [9] none) (intScalar 1)
          (SEXPv.extPtr 0) (lglScalar false)).2 =
        .ok (.intVec labels (some (1, Rf_asInteger (intScalar 2)))) :=
  C8_determinism stConstructed (intScalar 2) (SEXPv.intVec [9] none)
    (intScalar 1) (SEXPv.extPtr 0) (lglScalar false) [9] (by decide) rfl rfl

theorem epaparameters_new_natural_eq_identity (n_items : Int) (sim : List Rat)
    (perm : List Int) (m d : Rat) :
    epaparameters_new n_items sim perm 1 m d =
      epaparameters_new n_items sim
        ((List.range n_items.toNat).map Int.ofNat) 0 m d := by
  have hl : (((List.range n_items.toNat).map Int.ofNat).take n_items.toNat) =
      (List.range n_items.toNat).map Int.ofNat :=
    List.take_of_length_le (by simp)
  simp [epaparameters_new, hl]

/-- C9: constructing a prior with use_natural_permutation true and an
arbitrary permutation array, then sampling through the resulting handle,
yields output identical to constructing with the explicit identity
permutation 0, ..., n_items-1 (natural-permutation flag off) and sampling
identically: the supplied permutation array is ignored. -/
theorem C9_natural_permutation (st : RState)
    (simS permS massS discS nsS niS seedS pidS rS : SEXPv)
    (simD : List Rat) (permD : List Int)
    (hsim : coerceData_real simS = some simD)
    (hperm : coerceData_int permS = some permD) :
    (samplePartition
        (new_EpaParameters st simS permS (lglScalar true) massS discS).1
        nsS niS seedS pidS (SEXPv.extPtr st.nextPtrId) rS).2 =
    (samplePartition
        (new_EpaParameters st simS (identityPermSexp (Rf_nrows simS).toNat)
          (lglScalar false) massS discS).1
        nsS niS seedS pidS (SEXPv.extPtr st.nextPtrId) rS).2 := by
  have hid : coerceData_int (identityPermSexp (Rf_nrows simS).toNat) =
      some ((List.range (Rf_nrows simS).toNat).map Int.ofNat) := rfl
  have hp := epaparameters_new_natural_eq_identity (Rf_nrows simS) simD permD
      (Rf_asReal massS) (Rf_asReal discS)
  simp only [new_EpaParameters, new_EpaParametersCore, hsim, hperm, hid,
    Rf_asLogical_lglScalar, samplePartition]
  simp [hp]

/-- Witness for C9_natural_permutation: a non-identity permutation [5, 3]
against the explicit identity permutation on a 2 x 2 similarity. -/
theorem C9_natural_permutation_witness :
    (samplePartition
        (new_EpaParameters st0 sim22 (SEXPv.intVec [5, 3] none)
          (lglScalar true) (realScalar 2) (realScalar 0)).1
        (intScalar 2) (intScalar 2) (SEXPv.intVec [1] none) (intScalar 1)
        (SEXPv.extPtr st0.nextPtrId) (lglScalar false)).2 =
    (samplePartition
        (new_EpaParameters st0 sim22 (identityPermSexp (Rf_nrows sim22).toNat)
          (lglScalar false) (realScalar 2) (realScalar 0)).1
        (intScalar 2) (intScalar 2) (SEXPv.intVec [1] none) (intScalar 1)
        (SEXPv.extPtr st0.nextPtrId) (lglScalar false)).2 :=
  C9_natural_permutation st0 sim22 (SEXPv.intVec [5, 3] none) (realScalar 2)
    (realScalar 0) (intScalar 2) (intScalar 2) (SEXPv.intVec [1] none)
    (intScalar 1) (lglScalar false) [1, 1, 1, 1] [5, 3] (by decide) (by decide)

/-- C10: new_EpaParameters derives the item count passed to the native
constructor solely from the row count of the similarity argument, and —
whatever vector storage kinds the host supplied — passes the similarity
data coerced to double precision and the permutation data coerced to
32-bit integers. -/
theorem C10_marshalling (st : RState) (simS permS natS massS discS : SEXPv)
    (simD : List Rat) (permD : List Int)
    (hsim : coerceData_real simS = some simD)
    (hperm : coerceData_int permS = some permD) :
    (new_EpaParameters st simS permS natS massS discS).1.trace =
      st.trace ++
        [NEvent.protect, NEvent.protect,
         NEvent.callEpaNew (Rf_nrows simS) simD permD (Rf_asLogical natS)
           (Rf_asReal massS) (Rf_asReal discS),
         NEvent.unprotect 2] ∧
    (new_EpaParameters st simS permS natS massS discS).2 =
      .ok (.extPtr st.nextPtrId) := by
  constructor <;> simp [new_EpaParameters, new_EpaParametersCore, hsim, hperm]

/-- Witness for C10_marshalling: similarity supplied in integer storage and
permutation supplied in double storage are passed as doubles and 32-bit
integers respectively, with the item count taken from the similarity's row
count. -/
theorem C10_marshalling_witness :
    (new_EpaParameters st0 (SEXPv.intVec [1, 0, 0, 1] (some (2, 2)))
        (SEXPv.realVec [0, 1] none) (lglScalar true) (realScalar 1)
        (realScalar 0)).1.trace =
      st0.trace ++
        [NEvent.protect, NEvent.protect,
         NEvent.callEpaNew (Rf_nrows (SEXPv.intVec [1, 0, 0, 1] (some (2, 2))))
           [1, 0, 0, 1] [0, 1]
           (Rf_asLogical (lglScalar true)) (Rf_asReal (realScalar 1))
           (Rf_asReal (realScalar 0)),
         NEvent.unprotect 2] ∧
    (new_EpaParameters st0 (SEXPv.intVec [1, 0, 0, 1] (some (2, 2)))
        (SEXPv.realVec [0, 1] none) (lglScalar true) (realScalar 1)
        (realScalar 0)).2 = .ok (.extPtr 0) :=
  C10_marshalling st0 (SEXPv.intVec [1, 0, 0, 1] (some (2, 2)))
    (SEXPv.realVec [0, 1] none) (lglScalar true) (realScalar 1) (realScalar 0)
    [1, 0, 0, 1] [0, 1] (by decide) (by decide)
